import Mathlib

/-!
Verification of the compressible-flow coefficient library declared in
`src/Astrodynamics/ForceModels/aerodynamics.h` (namespace `tudat::aerodynamics`).
The header carries the named constants and the declarations; the function
bodies are not part of the staged sources, so each body below is modelled
from the specification's formulas and doc comments and is marked as such.
Machine `double` values are modelled as real numbers.
-/

open Real Filter Set Topology

/-- Modelled from the spec (error taxonomy of §7): the three error tags the
call boundaries of the library may signal. -/
inductive AerodynamicsError where
  | errorDomain
  | errorInvalidArgument
  | resultIndeterminate

/-- From the header, line 78: maximum Prandtl-Meyer function value for
ratio of specific heats 1.4, νmax = π/2·(√6 − 1). -/
noncomputable def maximumPrandtlMeyerFunctionValue : ℝ :=
  Real.pi / 2 * (Real.sqrt 6 - 1)

/-- From the header, line 85: first constant of the inverse Prandtl-Meyer
correlation. -/
noncomputable def PrandtlMeyerParameter1 : ℝ := 1.3604

/-- From the header, line 92: second constant of the inverse Prandtl-Meyer
correlation. -/
noncomputable def PrandtlMeyerParameter2 : ℝ := 0.0962

/-- From the header, line 99: third constant of the inverse Prandtl-Meyer
correlation. -/
noncomputable def PrandtlMeyerParameter3 : ℝ := -0.5127

/-- From the header, line 106: fourth constant of the inverse Prandtl-Meyer
correlation. -/
noncomputable def PrandtlMeyerParameter4 : ℝ := -0.6722

/-- From the header, line 113: fifth constant of the inverse Prandtl-Meyer
correlation. -/
noncomputable def PrandtlMeyerParameter5 : ℝ := -0.3278

/-- Modelled from the spec (§4.5), the body of `computePrandtlMeyerFunction`
not being in the header: ν(M, γ) = √((γ+1)/(γ−1))·atan(√((γ−1)/(γ+1)·(M²−1)))
− atan(√(M²−1)). -/
noncomputable def computePrandtlMeyerFunction
    (machNumber ratioOfSpecificHeats : ℝ) : ℝ :=
  Real.sqrt ((ratioOfSpecificHeats + 1) / (ratioOfSpecificHeats - 1)) *
      Real.arctan (Real.sqrt ((ratioOfSpecificHeats - 1) /
        (ratioOfSpecificHeats + 1) * (machNumber ^ 2 - 1))) -
    Real.arctan (Real.sqrt (machNumber ^ 2 - 1))

/-- Modelled from the spec (§4.5): the correlation variable of the empirical
inverse, (ν / νmax)^(2/3), the power chosen so that the correlation is exact
at both ends of [0, νmax]. -/
noncomputable def prandtlMeyerCorrelationVariable
    (prandtlMeyerFunctionValue : ℝ) : ℝ :=
  (prandtlMeyerFunctionValue / maximumPrandtlMeyerFunctionValue) ^ ((2 : ℝ) / 3)

/-- Modelled from the spec (§4.5): numerator of the 5-parameter rational
correlation for the inverse Prandtl-Meyer function. -/
noncomputable def inversePrandtlMeyerNumerator (y : ℝ) : ℝ :=
  1 + PrandtlMeyerParameter1 * y + PrandtlMeyerParameter2 * y ^ 2 +
    PrandtlMeyerParameter3 * y ^ 3

/-- Modelled from the spec (§4.5): denominator of the 5-parameter rational
correlation for the inverse Prandtl-Meyer function. -/
noncomputable def inversePrandtlMeyerDenominator (y : ℝ) : ℝ :=
  1 + PrandtlMeyerParameter4 * y + PrandtlMeyerParameter5 * y ^ 2

/-- Modelled from the spec (§4.5), the body of
`computeInversePrandtlMeyerFunction` not being in the header: the empirical
rational correlation M(ν), valid for γ = 1.4. -/
noncomputable def computeInversePrandtlMeyerFunction
    (prandtlMeyerFunctionValue : ℝ) : ℝ :=
  inversePrandtlMeyerNumerator
      (prandtlMeyerCorrelationVariable prandtlMeyerFunctionValue) /
    inversePrandtlMeyerDenominator
      (prandtlMeyerCorrelationVariable prandtlMeyerFunctionValue)

/-- Modelled from the spec (§4.2), the body of
`computeVacuumPressureCoefficient` not being in the header:
Cp_vac(M, γ) = −2/(γ·M²). -/
noncomputable def computeVacuumPressureCoefficient
    (machNumber ratioOfSpecificHeats : ℝ) : ℝ :=
  -2 / (ratioOfSpecificHeats * machNumber ^ 2)

/-- Modelled from the spec (§4.1), the body of `computeShockPressureRatio`
not being in the header: p₂/p₁ = 1 + 2γ/(γ+1)·(Mn² − 1), with no domain
enforcement. -/
noncomputable def computeShockPressureRatio
    (normalMachNumber ratioOfSpecificHeats : ℝ) : ℝ :=
  1 + 2 * ratioOfSpecificHeats / (ratioOfSpecificHeats + 1) *
    (normalMachNumber ^ 2 - 1)

/-- Modelled from the spec (§4.1), the body of `computeShockDensityRatio`
not being in the header: ρ₂/ρ₁ = (γ+1)·Mn² / ((γ−1)·Mn² + 2), with no domain
enforcement. -/
noncomputable def computeShockDensityRatio
    (normalMachNumber ratioOfSpecificHeats : ℝ) : ℝ :=
  (ratioOfSpecificHeats + 1) * normalMachNumber ^ 2 /
    ((ratioOfSpecificHeats - 1) * normalMachNumber ^ 2 + 2)

/-- Modelled from the spec (§4.1), the body of `computeShockEntropyJump` not
being in the header: the standard isentropic-relation form combining the
pressure and density ratios inside a logarithm,
ΔS = R/(γ−1) · ln( (p₂/p₁) / (ρ₂/ρ₁)^γ ). -/
noncomputable def computeShockEntropyJump
    (normalMachNumber ratioOfSpecificHeats specificGasConstant : ℝ) : ℝ :=
  specificGasConstant / (ratioOfSpecificHeats - 1) *
    Real.log (computeShockPressureRatio normalMachNumber ratioOfSpecificHeats /
      (computeShockDensityRatio normalMachNumber ratioOfSpecificHeats) ^
        ratioOfSpecificHeats)

/-- Modelled from the spec (§4.1), the body of
`computeShockTotalPressureRatio` not being in the header: derived directly
from the entropy jump as exp(−ΔS / R). -/
noncomputable def computeShockTotalPressureRatio
    (normalMachNumber ratioOfSpecificHeats specificGasConstant : ℝ) : ℝ :=
  Real.exp (-computeShockEntropyJump normalMachNumber ratioOfSpecificHeats
      specificGasConstant / specificGasConstant)

/-- Modelled from the spec (§4.4), the body of
`computeVanDykeUnifiedPressureCoefficient` not being in the header: the
selector `type` picks the expansion (+1, isentropic Prandtl-Meyer-like form)
or compression (−1, hypersonic-similarity form) branch, and any other
selector is rejected with `ErrorInvalidArgument` rather than silently
defaulting to one branch. -/
noncomputable def computeVanDykeUnifiedPressureCoefficient
    (inclinationAngle machNumber ratioOfSpecificHeats : ℝ) (type : ℤ) :
    Except AerodynamicsError ℝ :=
  if type = 1 then
    Except.ok (2 / (ratioOfSpecificHeats *
        (Real.sqrt (machNumber ^ 2 - 1)) ^ 2) *
      ((1 - (ratioOfSpecificHeats - 1) / 2 * Real.sqrt (machNumber ^ 2 - 1) *
          inclinationAngle) ^
          (2 * ratioOfSpecificHeats / (ratioOfSpecificHeats - 1)) - 1))
  else if type = -1 then
    Except.ok (inclinationAngle ^ 2 * ((ratioOfSpecificHeats + 1) / 2 +
      Real.sqrt (((ratioOfSpecificHeats + 1) / 2) ^ 2 +
        4 / (Real.sqrt (machNumber ^ 2 - 1) * inclinationAngle) ^ 2)))
  else
    Except.error AerodynamicsError.errorInvalidArgument

/-- Modelled from the spec (§7): the validated call boundary of the forward
Prandtl-Meyer function rejects M < 1 with `ErrorDomain`. -/
noncomputable def computePrandtlMeyerFunctionChecked
    (machNumber ratioOfSpecificHeats : ℝ) : Except AerodynamicsError ℝ :=
  if machNumber < 1 then Except.error AerodynamicsError.errorDomain
  else Except.ok (computePrandtlMeyerFunction machNumber ratioOfSpecificHeats)

/-- Modelled from the spec (§7): the validated call boundary of the inverse
Prandtl-Meyer function rejects ν outside [0, νmax] with `ErrorDomain`. -/
noncomputable def computeInversePrandtlMeyerFunctionChecked
    (prandtlMeyerFunctionValue : ℝ) : Except AerodynamicsError ℝ :=
  if prandtlMeyerFunctionValue < 0 ∨
      maximumPrandtlMeyerFunctionValue < prandtlMeyerFunctionValue then
    Except.error AerodynamicsError.errorDomain
  else Except.ok (computeInversePrandtlMeyerFunction prandtlMeyerFunctionValue)

/-- Modelled from the spec (§7): the validated call boundary of the vacuum
pressure coefficient rejects M = 0 with `ErrorDomain`. -/
noncomputable def computeVacuumPressureCoefficientChecked
    (machNumber ratioOfSpecificHeats : ℝ) : Except AerodynamicsError ℝ :=
  if machNumber = 0 then Except.error AerodynamicsError.errorDomain
  else Except.ok (computeVacuumPressureCoefficient machNumber
    ratioOfSpecificHeats)

/-! ## Shared helper lemmas -/

lemma one_lt_sqrt_six : (1 : ℝ) < Real.sqrt 6 := by
  have h : Real.sqrt 1 < Real.sqrt 6 :=
    Real.sqrt_lt_sqrt (by norm_num) (by norm_num)
  simpa using h

lemma maximumPrandtlMeyerFunctionValue_pos :
    0 < maximumPrandtlMeyerFunctionValue := by
  have h := one_lt_sqrt_six
  have hp : (0 : ℝ) < Real.pi / 2 := by positivity
  have : (0 : ℝ) < Real.sqrt 6 - 1 := by linarith
  exact mul_pos hp this

lemma inversePrandtlMeyerDenominator_pos {y : ℝ} (h0 : 0 ≤ y) (h1 : y < 1) :
    0 < inversePrandtlMeyerDenominator y := by
  have hy2 : y ^ 2 ≤ y := by nlinarith
  simp only [inversePrandtlMeyerDenominator, PrandtlMeyerParameter4,
    PrandtlMeyerParameter5]
  nlinarith

lemma prandtlMeyerCorrelationVariable_nonneg {v : ℝ} (h0 : 0 ≤ v) :
    0 ≤ prandtlMeyerCorrelationVariable v :=
  Real.rpow_nonneg
    (div_nonneg h0 maximumPrandtlMeyerFunctionValue_pos.le) _

lemma prandtlMeyerCorrelationVariable_lt_one {v : ℝ} (h0 : 0 ≤ v)
    (h1 : v < maximumPrandtlMeyerFunctionValue) :
    prandtlMeyerCorrelationVariable v < 1 :=
  Real.rpow_lt_one (div_nonneg h0 maximumPrandtlMeyerFunctionValue_pos.le)
    ((div_lt_one maximumPrandtlMeyerFunctionValue_pos).mpr h1) (by norm_num)

lemma prandtlMeyerCorrelationVariable_at_max :
    prandtlMeyerCorrelationVariable maximumPrandtlMeyerFunctionValue = 1 := by
  unfold prandtlMeyerCorrelationVariable
  rw [div_self maximumPrandtlMeyerFunctionValue_pos.ne', Real.one_rpow]

/-! ## C10 -/

/-- C10: the curve-fit constants satisfy P4 + P5 = −1 exactly, so the
denominator of the rational inverse correlation vanishes at ν = νmax and at
no other ν in [0, νmax): the inverse diverges exactly at the ceiling. -/
theorem inversePrandtlMeyerDenominator_vanishes_only_at_max :
    PrandtlMeyerParameter4 + PrandtlMeyerParameter5 = -1 ∧
    inversePrandtlMeyerDenominator
      (prandtlMeyerCorrelationVariable maximumPrandtlMeyerFunctionValue) = 0 ∧
    ∀ v : ℝ, 0 ≤ v → v < maximumPrandtlMeyerFunctionValue →
      inversePrandtlMeyerDenominator (prandtlMeyerCorrelationVariable v) ≠ 0 := by
  refine ⟨by norm_num [PrandtlMeyerParameter4, PrandtlMeyerParameter5], ?_, ?_⟩
  · rw [prandtlMeyerCorrelationVariable_at_max]
    norm_num [inversePrandtlMeyerDenominator, PrandtlMeyerParameter4,
      PrandtlMeyerParameter5]
  · intro v h0 h1
    exact (inversePrandtlMeyerDenominator_pos
      (prandtlMeyerCorrelationVariable_nonneg h0)
      (prandtlMeyerCorrelationVariable_lt_one h0 h1)).ne'

/-! ## C4 -/

/-- C4: for every inclination angle, Mach number and γ, a type selector
other than +1 (expansion) or −1 (compression) makes the van Dyke unified
method fail with `ErrorInvalidArgument`; it never silently defaults to one
of the two branches. -/
theorem vanDykeUnified_rejects_unknown_selector
    (inclinationAngle machNumber ratioOfSpecificHeats : ℝ) (type : ℤ)
    (h1 : type ≠ 1) (h2 : type ≠ -1) :
    computeVanDykeUnifiedPressureCoefficient inclinationAngle machNumber
      ratioOfSpecificHeats type =
      Except.error AerodynamicsError.errorInvalidArgument := by
  unfold computeVanDykeUnifiedPressureCoefficient
  rw [if_neg h1, if_neg h2]

/-- Witness for C4: the invalid selector 0 at θ = 0.2, M = 5, γ = 1.4 is
rejected. -/
theorem vanDykeUnified_rejects_unknown_selector_witness :
    computeVanDykeUnifiedPressureCoefficient 0.2 5 1.4 0 =
      Except.error AerodynamicsError.errorInvalidArgument :=
  vanDykeUnified_rejects_unknown_selector 0.2 5 1.4 0 (by decide) (by decide)

/-! ## C5 -/

/-- C5: each mathematically invalid input is rejected with `ErrorDomain`
rather than yielding a finite numeric result: M < 1 given to the forward
Prandtl-Meyer function, ν outside [0, νmax] given to the inverse, and M = 0
given to the vacuum pressure coefficient. -/
theorem invalid_domain_inputs_rejected
    (machNumber prandtlMeyerFunctionValue ratioOfSpecificHeats : ℝ)
    (hM : machNumber < 1)
    (hv : prandtlMeyerFunctionValue < 0 ∨
      maximumPrandtlMeyerFunctionValue < prandtlMeyerFunctionValue) :
    computePrandtlMeyerFunctionChecked machNumber ratioOfSpecificHeats =
        Except.error AerodynamicsError.errorDomain ∧
    computeInversePrandtlMeyerFunctionChecked prandtlMeyerFunctionValue =
        Except.error AerodynamicsError.errorDomain ∧
    computeVacuumPressureCoefficientChecked 0 ratioOfSpecificHeats =
        Except.error AerodynamicsError.errorDomain := by
  refine ⟨?_, ?_, ?_⟩
  · unfold computePrandtlMeyerFunctionChecked
    rw [if_pos hM]
  · unfold computeInversePrandtlMeyerFunctionChecked
    rw [if_pos hv]
  · unfold computeVacuumPressureCoefficientChecked
    rw [if_pos rfl]

/-- Witness for C5: M = 0.5 for the forward function and ν = −1 for the
inverse are rejected, as is M = 0 for the vacuum coefficient. -/
theorem invalid_domain_inputs_rejected_witness :
    computePrandtlMeyerFunctionChecked 0.5 1.4 =
        Except.error AerodynamicsError.errorDomain ∧
    computeInversePrandtlMeyerFunctionChecked (-1) =
        Except.error AerodynamicsError.errorDomain ∧
    computeVacuumPressureCoefficientChecked 0 1.4 =
        Except.error AerodynamicsError.errorDomain :=
  invalid_domain_inputs_rejected 0.5 (-1) 1.4 (by norm_num)
    (Or.inl (by norm_num))

/-! ## C7 -/

/-- C7: for every Mn ≥ 0 and γ > 1, the shock pressure ratio is exactly
1 + 2γ/(γ+1)·(Mn² − 1) with no domain enforcement, and at Mn = 1 both the
pressure ratio and the density ratio equal 1 (no shock). -/
theorem shockRatios_formula_and_no_shock_at_one
    (normalMachNumber ratioOfSpecificHeats : ℝ)
    (hMn : 0 ≤ normalMachNumber) (hg : 1 < ratioOfSpecificHeats) :
    computeShockPressureRatio normalMachNumber ratioOfSpecificHeats =
        1 + 2 * ratioOfSpecificHeats / (ratioOfSpecificHeats + 1) *
          (normalMachNumber ^ 2 - 1) ∧
    computeShockPressureRatio 1 ratioOfSpecificHeats = 1 ∧
    computeShockDensityRatio 1 ratioOfSpecificHeats = 1 := by
  have hg1 : ratioOfSpecificHeats + 1 ≠ 0 := by linarith
  refine ⟨rfl, ?_, ?_⟩
  · simp [computeShockPressureRatio]
  · unfold computeShockDensityRatio
    rw [show (ratioOfSpecificHeats - 1) * 1 ^ 2 + 2 = ratioOfSpecificHeats + 1
      from by ring, one_pow, mul_one, div_self hg1]

/-- Witness for C7 at Mn = 2, γ = 1.4. -/
theorem shockRatios_formula_and_no_shock_at_one_witness :
    computeShockPressureRatio 2 1.4 = 1 + 2 * 1.4 / (1.4 + 1) * (2 ^ 2 - 1) ∧
    computeShockPressureRatio 1 1.4 = 1 ∧
    computeShockDensityRatio 1 1.4 = 1 :=
  shockRatios_formula_and_no_shock_at_one 2 1.4 (by norm_num) (by norm_num)

/-! ## C9 -/

/-- C9: for M > 0 and γ > 1 the vacuum pressure coefficient is exactly
−2/(γ·M²), strictly negative, its magnitude strictly decreasing in M, and
the validated boundary excludes the undefined input M = 0 with
`ErrorDomain`. -/
theorem vacuumPressure_negative_and_magnitude_decreasing
    (machNumber otherMachNumber ratioOfSpecificHeats : ℝ)
    (hM : 0 < machNumber) (hMM : machNumber < otherMachNumber)
    (hg : 1 < ratioOfSpecificHeats) :
    computeVacuumPressureCoefficient machNumber ratioOfSpecificHeats =
        -2 / (ratioOfSpecificHeats * machNumber ^ 2) ∧
    computeVacuumPressureCoefficient machNumber ratioOfSpecificHeats < 0 ∧
    |computeVacuumPressureCoefficient otherMachNumber ratioOfSpecificHeats| <
        |computeVacuumPressureCoefficient machNumber ratioOfSpecificHeats| ∧
    computeVacuumPressureCoefficientChecked 0 ratioOfSpecificHeats =
        Except.error AerodynamicsError.errorDomain := by
  have hg0 : 0 < ratioOfSpecificHeats := by linarith
  have habs : ∀ M : ℝ, 0 < M →
      |computeVacuumPressureCoefficient M ratioOfSpecificHeats| =
        2 / (ratioOfSpecificHeats * M ^ 2) := by
    intro M hMpos
    unfold computeVacuumPressureCoefficient
    rw [abs_div, abs_of_pos (by positivity : (0:ℝ) < ratioOfSpecificHeats * M ^ 2)]
    norm_num
  refine ⟨rfl, ?_, ?_, ?_⟩
  · unfold computeVacuumPressureCoefficient
    apply div_neg_of_neg_of_pos (by norm_num)
    positivity
  · rw [habs machNumber hM, habs otherMachNumber (hM.trans hMM)]
    apply div_lt_div_of_pos_left (by norm_num) (by positivity)
    have : machNumber ^ 2 < otherMachNumber ^ 2 := by nlinarith
    nlinarith
  · unfold computeVacuumPressureCoefficientChecked
    rw [if_pos rfl]

/-- Witness for C9 at M = 1 against M = 2, γ = 1.4. -/
theorem vacuumPressure_negative_and_magnitude_decreasing_witness :
    computeVacuumPressureCoefficient 1 1.4 = -2 / (1.4 * 1 ^ 2) ∧
    computeVacuumPressureCoefficient 1 1.4 < 0 ∧
    |computeVacuumPressureCoefficient 2 1.4| <
        |computeVacuumPressureCoefficient 1 1.4| ∧
    computeVacuumPressureCoefficientChecked 0 1.4 =
        Except.error AerodynamicsError.errorDomain :=
  vacuumPressure_negative_and_magnitude_decreasing 1 2 1.4 (by norm_num)
    (by norm_num) (by norm_num)

/-! ## C2 -/

lemma computeInversePrandtlMeyerFunction_at_zero :
    computeInversePrandtlMeyerFunction 0 = 1 := by
  have hy : prandtlMeyerCorrelationVariable 0 = 0 := by
    unfold prandtlMeyerCorrelationVariable
    rw [zero_div, Real.zero_rpow (by norm_num)]
  unfold computeInversePrandtlMeyerFunction
  rw [hy]
  norm_num [inversePrandtlMeyerNumerator, inversePrandtlMeyerDenominator]

lemma inversePrandtlMeyer_tendsto_atTop :
    Filter.Tendsto computeInversePrandtlMeyerFunction
      (nhdsWithin maximumPrandtlMeyerFunctionValue
        (Set.Iio maximumPrandtlMeyerFunctionValue)) Filter.atTop := by
  rw [← nhdsWithin_Ioo_eq_nhdsWithin_Iio maximumPrandtlMeyerFunctionValue_pos]
  set l := nhdsWithin maximumPrandtlMeyerFunctionValue
      (Set.Ioo 0 maximumPrandtlMeyerFunctionValue) with hldef
  have hcont : ContinuousAt prandtlMeyerCorrelationVariable
      maximumPrandtlMeyerFunctionValue := by
    unfold prandtlMeyerCorrelationVariable
    exact (continuousAt_id.div_const _).rpow_const
      (Or.inl (by
        simpa using maximumPrandtlMeyerFunctionValue_pos.ne'))
  have hy1 : Filter.Tendsto prandtlMeyerCorrelationVariable l
      (𝓝 (prandtlMeyerCorrelationVariable maximumPrandtlMeyerFunctionValue)) :=
    hcont.continuousWithinAt
  rw [prandtlMeyerCorrelationVariable_at_max] at hy1
  have hNcont : Continuous inversePrandtlMeyerNumerator := by
    unfold inversePrandtlMeyerNumerator; fun_prop
  have hDcont : Continuous inversePrandtlMeyerDenominator := by
    unfold inversePrandtlMeyerDenominator; fun_prop
  have hN : Filter.Tendsto
      (inversePrandtlMeyerNumerator ∘ prandtlMeyerCorrelationVariable) l
      (𝓝 (inversePrandtlMeyerNumerator 1)) := (hNcont.tendsto 1).comp hy1
  have hNval : inversePrandtlMeyerNumerator 1 = 1.9439 := by
    norm_num [inversePrandtlMeyerNumerator, PrandtlMeyerParameter1,
      PrandtlMeyerParameter2, PrandtlMeyerParameter3]
  rw [hNval] at hN
  have hD0 : Filter.Tendsto
      (fun v => inversePrandtlMeyerDenominator (prandtlMeyerCorrelationVariable v))
      l (𝓝 (inversePrandtlMeyerDenominator 1)) := (hDcont.tendsto 1).comp hy1
  have hDval : inversePrandtlMeyerDenominator 1 = 0 := by
    norm_num [inversePrandtlMeyerDenominator, PrandtlMeyerParameter4,
      PrandtlMeyerParameter5]
  rw [hDval] at hD0
  have hD : Filter.Tendsto
      (fun v => inversePrandtlMeyerDenominator (prandtlMeyerCorrelationVariable v))
      l (𝓝[>] 0) := by
    refine tendsto_nhdsWithin_iff.mpr ⟨hD0, ?_⟩
    filter_upwards [self_mem_nhdsWithin] with v hv
    exact inversePrandtlMeyerDenominator_pos
      (prandtlMeyerCorrelationVariable_nonneg hv.1.le)
      (prandtlMeyerCorrelationVariable_lt_one hv.1.le hv.2)
  have hmul := Filter.Tendsto.mul_atTop (by norm_num : (0:ℝ) < 1.9439) hN
    hD.inv_tendsto_zero
  refine hmul.congr fun v => ?_
  simp [computeInversePrandtlMeyerFunction, Function.comp, div_eq_mul_inv]

/-- C2: the empirical inverse Prandtl-Meyer correlation returns exactly 1
(the M = 1 boundary) at ν = 0, and as ν approaches νmax from below its
value grows without bound. -/
theorem inversePrandtlMeyer_boundary_value_and_divergence :
    computeInversePrandtlMeyerFunction 0 = 1 ∧
    Filter.Tendsto computeInversePrandtlMeyerFunction
      (nhdsWithin maximumPrandtlMeyerFunctionValue
        (Set.Iio maximumPrandtlMeyerFunctionValue)) Filter.atTop :=
  ⟨computeInversePrandtlMeyerFunction_at_zero, inversePrandtlMeyer_tendsto_atTop⟩

/-! ## Prandtl-Meyer function at γ = 1.4: shared analysis -/

/-- The γ = 1.4 Prandtl-Meyer function expressed in the variable
t = √(M² − 1): ν = √6·atan(t/√6) − atan(t). -/
noncomputable def prandtlMeyerShape (t : ℝ) : ℝ :=
  Real.sqrt 6 * Real.arctan (t / Real.sqrt 6) - Real.arctan t

lemma computePrandtlMeyerFunction_air {M : ℝ} (hM : 1 ≤ M) :
    computePrandtlMeyerFunction M 1.4 =
      prandtlMeyerShape (Real.sqrt (M ^ 2 - 1)) := by
  have hM2 : (0:ℝ) ≤ M ^ 2 - 1 := by nlinarith
  unfold computePrandtlMeyerFunction prandtlMeyerShape
  have h1 : ((1.4 : ℝ) + 1) / (1.4 - 1) = 6 := by norm_num
  have h2 : ((1.4 : ℝ) - 1) / (1.4 + 1) * (M ^ 2 - 1) = (M ^ 2 - 1) / 6 := by
    ring_nf
  rw [h1, h2, Real.sqrt_div hM2 6]

lemma prandtlMeyerShape_hasDerivAt (x : ℝ) :
    HasDerivAt prandtlMeyerShape
      (Real.sqrt 6 * (1 / (1 + (x / Real.sqrt 6) ^ 2) * (1 / Real.sqrt 6)) -
        1 / (1 + x ^ 2)) x := by
  have h1 : HasDerivAt (fun t : ℝ => t / Real.sqrt 6) (1 / Real.sqrt 6) x := by
    simpa using (hasDerivAt_id x).div_const (Real.sqrt 6)
  have h2 : HasDerivAt (fun t : ℝ => Real.arctan (t / Real.sqrt 6))
      (1 / (1 + (x / Real.sqrt 6) ^ 2) * (1 / Real.sqrt 6)) x := by
    simpa using (Real.hasDerivAt_arctan (x / Real.sqrt 6)).comp x h1
  exact (h2.const_mul (Real.sqrt 6)).sub (Real.hasDerivAt_arctan x)

lemma prandtlMeyerShape_monotone : Monotone prandtlMeyerShape := by
  apply monotone_of_deriv_nonneg
  · exact fun x => (prandtlMeyerShape_hasDerivAt x).differentiableAt
  · intro x
    rw [(prandtlMeyerShape_hasDerivAt x).deriv]
    have hx2 : (x / Real.sqrt 6) ^ 2 = x ^ 2 / 6 := by
      rw [div_pow, Real.sq_sqrt (by norm_num : (0:ℝ) ≤ 6)]
    rw [hx2]
    have hs : (0:ℝ) < Real.sqrt 6 := Real.sqrt_pos.mpr (by norm_num)
    have he : Real.sqrt 6 * (1 / (1 + x ^ 2 / 6) * (1 / Real.sqrt 6)) =
        1 / (1 + x ^ 2 / 6) := by
      field_simp
      ring
    rw [he]
    have hpos : (0:ℝ) < 1 + x ^ 2 / 6 := by positivity
    have hle : 1 + x ^ 2 / 6 ≤ 1 + x ^ 2 := by nlinarith [sq_nonneg x]
    have := one_div_le_one_div_of_le hpos hle
    linarith

lemma computePrandtlMeyerFunction_mono {M1 M2 : ℝ} (h1 : 1 ≤ M1)
    (h12 : M1 ≤ M2) :
    computePrandtlMeyerFunction M1 1.4 ≤ computePrandtlMeyerFunction M2 1.4 := by
  rw [computePrandtlMeyerFunction_air h1,
    computePrandtlMeyerFunction_air (h1.trans h12)]
  exact prandtlMeyerShape_monotone (Real.sqrt_le_sqrt (by nlinarith))

lemma computePrandtlMeyerFunction_one : computePrandtlMeyerFunction 1 1.4 = 0 := by
  unfold computePrandtlMeyerFunction
  norm_num [Real.sqrt_zero, Real.arctan_zero]

/-! ## C3 -/

/-- C3: the constant `maximumPrandtlMeyerFunctionValue` equals
(π/2)·(√6 − 1), and for every M ≥ 1 the γ = 1.4 Prandtl-Meyer function
value stays at or below that ceiling. -/
theorem prandtlMeyer_bounded_by_maximum (M : ℝ) (hM : 1 ≤ M) :
    maximumPrandtlMeyerFunctionValue = Real.pi / 2 * (Real.sqrt 6 - 1) ∧
    computePrandtlMeyerFunction M 1.4 ≤ maximumPrandtlMeyerFunctionValue := by
  refine ⟨rfl, ?_⟩
  rw [computePrandtlMeyerFunction_air hM]
  unfold prandtlMeyerShape maximumPrandtlMeyerFunctionValue
  set t := Real.sqrt (M ^ 2 - 1) with htdef
  set a := Real.arctan (t / Real.sqrt 6) with hadef
  set b := Real.arctan t with hbdef
  have ht : 0 ≤ t := Real.sqrt_nonneg _
  have hs := one_lt_sqrt_six
  have hab : a ≤ b := Real.arctan_strictMono.monotone (div_le_self ht hs.le)
  have ha : a < Real.pi / 2 := Real.arctan_lt_pi_div_two _
  have hb : b < Real.pi / 2 := Real.arctan_lt_pi_div_two _
  have hu : 0 ≤ Real.pi / 2 - a := by linarith
  have key : Real.pi / 2 - a ≤ Real.sqrt 6 * (Real.pi / 2 - a) :=
    le_mul_of_one_le_left hu hs.le
  nlinarith [key, hab, hb]

/-- Witness for C3 at M = 2. -/
theorem prandtlMeyer_bounded_by_maximum_witness :
    maximumPrandtlMeyerFunctionValue = Real.pi / 2 * (Real.sqrt 6 - 1) ∧
    computePrandtlMeyerFunction 2 1.4 ≤ maximumPrandtlMeyerFunctionValue :=
  prandtlMeyer_bounded_by_maximum 2 (by norm_num)

/-! ## C6 -/

/-- C6: at γ = 1.4 the Prandtl-Meyer function vanishes at M = 1 and is
monotonically increasing on M ≥ 1. -/
theorem prandtlMeyer_zero_at_one_and_monotone (M1 M2 : ℝ)
    (h1 : 1 ≤ M1) (h12 : M1 ≤ M2) :
    computePrandtlMeyerFunction 1 1.4 = 0 ∧
    computePrandtlMeyerFunction M1 1.4 ≤ computePrandtlMeyerFunction M2 1.4 :=
  ⟨computePrandtlMeyerFunction_one, computePrandtlMeyerFunction_mono h1 h12⟩

/-- Witness for C6 at M1 = 2, M2 = 3. -/
theorem prandtlMeyer_zero_at_one_and_monotone_witness :
    computePrandtlMeyerFunction 1 1.4 = 0 ∧
    computePrandtlMeyerFunction 2 1.4 ≤ computePrandtlMeyerFunction 3 1.4 :=
  prandtlMeyer_zero_at_one_and_monotone 2 3 (by norm_num) (by norm_num)

/-! ## Shock entropy analysis for C8 -/

/-- The entropy-jump core ln(p₂/p₁) − γ·ln(ρ₂/ρ₁) written in the variable
x = Mn². -/
noncomputable def shockEntropyShape (g x : ℝ) : ℝ :=
  Real.log (1 + 2 * g / (g + 1) * (x - 1)) -
    g * Real.log ((g + 1) * x / ((g - 1) * x + 2))

lemma shockEntropyShape_p_pos {g x : ℝ} (hg : 1 < g) (hx : 1 ≤ x) :
    0 < 1 + 2 * g / (g + 1) * (x - 1) := by
  have hc : 0 ≤ 2 * g / (g + 1) := by positivity
  nlinarith [mul_nonneg hc (by linarith : (0:ℝ) ≤ x - 1)]

lemma shockEntropyShape_d_pos {g x : ℝ} (hg : 1 < g) (hx : 1 ≤ x) :
    0 < (g - 1) * x + 2 := by nlinarith

lemma shockEntropyShape_q_pos {g x : ℝ} (hg : 1 < g) (hx : 1 ≤ x) :
    0 < (g + 1) * x / ((g - 1) * x + 2) :=
  div_pos (by nlinarith) (shockEntropyShape_d_pos hg hx)

lemma shockEntropyShape_hasDerivAt {g x : ℝ} (hg : 1 < g) (hx : 1 ≤ x) :
    HasDerivAt (shockEntropyShape g)
      (2 * g / (g + 1) / (1 + 2 * g / (g + 1) * (x - 1)) -
        g * (((g + 1) * ((g - 1) * x + 2) - (g + 1) * x * (g - 1)) /
            ((g - 1) * x + 2) ^ 2 /
          ((g + 1) * x / ((g - 1) * x + 2)))) x := by
  have hp := shockEntropyShape_p_pos hg hx
  have hd := shockEntropyShape_d_pos hg hx
  have hq := shockEntropyShape_q_pos hg hx
  have h1 : HasDerivAt (fun y : ℝ => 1 + 2 * g / (g + 1) * (y - 1))
      (2 * g / (g + 1)) x := by
    simpa using
      (((hasDerivAt_id x).sub_const 1).const_mul (2 * g / (g + 1))).const_add 1
  have hlog1 : HasDerivAt (fun y : ℝ => Real.log (1 + 2 * g / (g + 1) * (y - 1)))
      (2 * g / (g + 1) / (1 + 2 * g / (g + 1) * (x - 1))) x :=
    h1.log hp.ne'
  have h2 : HasDerivAt (fun y : ℝ => (g + 1) * y) (g + 1) x := by
    simpa using (hasDerivAt_id x).const_mul (g + 1)
  have h3 : HasDerivAt (fun y : ℝ => (g - 1) * y + 2) (g - 1) x := by
    simpa using ((hasDerivAt_id x).const_mul (g - 1)).add_const 2
  have h4 : HasDerivAt (fun y : ℝ => (g + 1) * y / ((g - 1) * y + 2))
      (((g + 1) * ((g - 1) * x + 2) - (g + 1) * x * (g - 1)) /
        ((g - 1) * x + 2) ^ 2) x := h2.div h3 hd.ne'
  have hlog2 := h4.log hq.ne'
  exact hlog1.sub (hlog2.const_mul g)

lemma shockEntropyShape_monotoneOn {g : ℝ} (hg : 1 < g) :
    MonotoneOn (shockEntropyShape g) (Set.Ici 1) := by
  apply monotoneOn_of_deriv_nonneg (convex_Ici 1)
  · apply ContinuousOn.sub
    · apply ContinuousOn.log
      · fun_prop
      · intro x hx
        exact (shockEntropyShape_p_pos hg hx).ne'
    · apply ContinuousOn.mul continuousOn_const
      apply ContinuousOn.log
      · apply ContinuousOn.div (by fun_prop) (by fun_prop)
        intro x hx
        exact (shockEntropyShape_d_pos hg hx).ne'
      · intro x hx
        exact (shockEntropyShape_q_pos hg hx).ne'
  · intro x hx
    rw [interior_Ici] at hx
    exact (shockEntropyShape_hasDerivAt hg hx.le).differentiableAt.differentiableWithinAt
  · intro x hx
    rw [interior_Ici] at hx
    have hx1 : 1 ≤ x := hx.le
    rw [(shockEntropyShape_hasDerivAt hg hx1).deriv]
    have hp := shockEntropyShape_p_pos hg hx1
    have hd := shockEntropyShape_d_pos hg hx1
    have hx0 : (0:ℝ) < x := by linarith
    have hg1 : (0:ℝ) < g + 1 := by linarith
    have e1 : g * (((g + 1) * ((g - 1) * x + 2) - (g + 1) * x * (g - 1)) /
          ((g - 1) * x + 2) ^ 2 / ((g + 1) * x / ((g - 1) * x + 2))) =
        2 * g / (x * ((g - 1) * x + 2)) := by
      field_simp
      ring
    have e2 : 2 * g / (g + 1) / (1 + 2 * g / (g + 1) * (x - 1)) =
        2 * g / ((g + 1) * (1 + 2 * g / (g + 1) * (x - 1))) := by
      rw [div_div]
    rw [e1, e2]
    rw [sub_nonneg, div_le_div_iff (by positivity) (by positivity)]
    have eP : (g + 1) * (1 + 2 * g / (g + 1) * (x - 1)) =
        g + 1 + 2 * g * (x - 1) := by
      field_simp
    have key : g + 1 + 2 * g * (x - 1) ≤ x * ((g - 1) * x + 2) := by
      nlinarith [mul_nonneg (by linarith : (0:ℝ) ≤ g - 1) (sq_nonneg (x - 1))]
    rw [eP]
    have hgpos : (0:ℝ) ≤ 2 * g := by linarith
    nlinarith [mul_le_mul_of_nonneg_left key hgpos]

lemma shockEntropyShape_at_one {g : ℝ} (hg : 1 < g) :
    shockEntropyShape g 1 = 0 := by
  unfold shockEntropyShape
  have h1 : (1:ℝ) + 2 * g / (g + 1) * (1 - 1) = 1 := by ring
  have h2 : (g + 1) * 1 / ((g - 1) * 1 + 2) = 1 := by
    rw [show (g - 1) * 1 + 2 = g + 1 from by ring, mul_one,
      div_self (ne_of_gt (by linarith : (0:ℝ) < g + 1))]
  rw [h1, h2, Real.log_one]
  ring

lemma shockEntropyShape_nonneg {g x : ℝ} (hg : 1 < g) (hx : 1 ≤ x) :
    0 ≤ shockEntropyShape g x := by
  have h := shockEntropyShape_monotoneOn hg (Set.mem_Ici.mpr le_rfl)
    (Set.mem_Ici.mpr hx) hx
  rwa [shockEntropyShape_at_one hg] at h

lemma computeShockEntropyJump_nonneg {Mn g R : ℝ} (hM : 1 ≤ Mn) (hg : 1 < g)
    (hR : 0 ≤ R) : 0 ≤ computeShockEntropyJump Mn g R := by
  have hx : 1 ≤ Mn ^ 2 := by nlinarith
  have hp : 0 < computeShockPressureRatio Mn g := by
    have := shockEntropyShape_p_pos hg hx
    unfold computeShockPressureRatio
    linarith
  have hrho : 0 < computeShockDensityRatio Mn g := by
    unfold computeShockDensityRatio
    exact div_pos (by nlinarith) (by nlinarith)
  have hlog : Real.log (computeShockPressureRatio Mn g /
      (computeShockDensityRatio Mn g) ^ g) = shockEntropyShape g (Mn ^ 2) := by
    rw [Real.log_div hp.ne' (Real.rpow_pos_of_pos hrho g).ne',
      Real.log_rpow hrho]
    rfl
  unfold computeShockEntropyJump
  rw [hlog]
  exact mul_nonneg (div_nonneg hR (by linarith)) (shockEntropyShape_nonneg hg hx)

lemma computeShockEntropyJump_at_one {g R : ℝ} (hg : 1 < g) :
    computeShockEntropyJump 1 g R = 0 := by
  unfold computeShockEntropyJump computeShockPressureRatio computeShockDensityRatio
  have h1 : (1:ℝ) + 2 * g / (g + 1) * (1 ^ 2 - 1) = 1 := by ring
  have h2 : (g + 1) * 1 ^ 2 / ((g - 1) * 1 ^ 2 + 2) = 1 := by
    rw [show (g - 1) * 1 ^ 2 + 2 = g + 1 from by ring, one_pow, mul_one,
      div_self (ne_of_gt (by linarith : (0:ℝ) < g + 1))]
  rw [h1, h2, Real.one_rpow, div_one, Real.log_one, mul_zero]

/-! ## C8 -/

/-- C8: the post- to pre-shock total pressure ratio equals
exp(−ΔS/R) with ΔS the entropy jump, it never exceeds 1 on the physical
domain Mn ≥ 1, and it equals exactly 1 at Mn = 1 (no shock). -/
theorem shockTotalPressure_from_entropy_jump
    (normalMachNumber ratioOfSpecificHeats specificGasConstant : ℝ)
    (hM : 1 ≤ normalMachNumber) (hg : 1 < ratioOfSpecificHeats)
    (hR : 0 < specificGasConstant) :
    computeShockTotalPressureRatio normalMachNumber ratioOfSpecificHeats
        specificGasConstant =
      Real.exp (-computeShockEntropyJump normalMachNumber ratioOfSpecificHeats
          specificGasConstant / specificGasConstant) ∧
    computeShockTotalPressureRatio normalMachNumber ratioOfSpecificHeats
        specificGasConstant ≤ 1 ∧
    computeShockTotalPressureRatio 1 ratioOfSpecificHeats
        specificGasConstant = 1 := by
  refine ⟨rfl, ?_, ?_⟩
  · unfold computeShockTotalPressureRatio
    rw [Real.exp_le_one_iff]
    have h := computeShockEntropyJump_nonneg hM hg hR.le
    exact div_nonpos_of_nonpos_of_nonneg (by linarith) hR.le
  · unfold computeShockTotalPressureRatio
    rw [computeShockEntropyJump_at_one hg, neg_zero, zero_div, Real.exp_zero]

/-- Witness for C8 at Mn = 2, γ = 1.4, R = 287. -/
theorem shockTotalPressure_from_entropy_jump_witness :
    computeShockTotalPressureRatio 2 1.4 287 =
      Real.exp (-computeShockEntropyJump 2 1.4 287 / 287) ∧
    computeShockTotalPressureRatio 2 1.4 287 ≤ 1 ∧
    computeShockTotalPressureRatio 1 1.4 287 = 1 :=
  shockTotalPressure_from_entropy_jump 2 1.4 287 (by norm_num) (by norm_num)
    (by norm_num)
